import Mathlib

/-!
Verification development for the Rust/Polars streaming-session library
(`src/rust-polars/src/lib.rs`).  The repository code is shallowly embedded:
its pure functions become Lean functions and the global session registry
becomes explicit state passing over a `Store` value.  The external tabular
engine (Polars) and the JSON library (serde_json) are out of scope per the
specification; the small parts of their behaviour that the repository code
observes (typed column accessors, CSV decode outcomes, `AnyValue`-slice
series construction, `f64` parsing) are modelled explicitly, with comments
noting where the model abstracts engine internals.

Machine integers: row counts are `Nat`, session handles (`jlong`) are `Int`;
no claim depends on 64-bit wraparound, so no modular reduction is applied.
64-bit floats are modelled as rationals (`ℚ`) for finite values, with a
separate `F64` type for parse results so that infinities and NaN returned by
Rust's `str::parse::<f64>` are representable.
-/

namespace RustPolars

/-- serde_json value as produced by this library: JSON null, boolean, number
or string.  serde_json distinguishes integer numbers (`json!(i64)`) from
floating numbers (`json!(f64)`): `as_i64` succeeds only on the former, which
the two number constructors record. -/
inductive JsonValue where
  | null : JsonValue
  | bool (b : Bool) : JsonValue
  | numI (i : Int) : JsonValue
  | numF (q : ℚ) : JsonValue
  | str (s : String) : JsonValue
deriving DecidableEq, Repr

/-- One engine cell: either null or a typed payload.  `other` carries the
textual rendering of an engine-native value outside the five handled types. -/
inductive Cell where
  | null : Cell
  | str (s : String) : Cell
  | int (i : Int) : Cell
  | float (q : ℚ) : Cell
  | bool (b : Bool) : Cell
  | other (rendered : String) : Cell
deriving DecidableEq, Repr

/-- Engine column dtype.  The source handles `Utf8`, `Int64`, `Float64`,
`Int32`, `Float32` specially; every other dtype (booleans, all-null columns,
dates, ...) takes the fallback branch.  `nullType` is the dtype of an
all-null column, `boolean` of a boolean column, `other` stands for any
remaining engine dtype. -/
inductive DType where
  | utf8 : DType
  | int64 : DType
  | float64 : DType
  | int32 : DType
  | float32 : DType
  | boolean : DType
  | nullType : DType
  | other : DType
deriving DecidableEq, Repr

/-- Engine series: a named, dtype-tagged column of nullable cells. -/
structure Series where
  name : String
  dtype : DType
  cells : List Cell
deriving DecidableEq, Repr

/-- A cell payload is admissible for a dtype (nulls are always admissible,
separately). -/
def cellMatches : DType → Cell → Bool
  | .utf8, .str _ => true
  | .int64, .int _ => true
  | .int32, .int _ => true
  | .float64, .float _ => true
  | .float32, .float _ => true
  | .boolean, .bool _ => true
  | .other, .other _ => true
  | _, _ => false

/-- Well-formed series: every cell is null or matches the series dtype.
Engine-produced series always satisfy this (a `ChunkedArray` is typed). -/
def Series.wf (s : Series) : Bool :=
  s.cells.all (fun c => c == Cell.null || cellMatches s.dtype c)

/-- Typed string accessor: models `series.utf8()?.get(row)`, which returns
`None` for a null cell or an out-of-bounds row.  (The accessor itself —
`series.utf8()` — cannot fail when the dtype is `Utf8`, so the source's
`else`-branch sentinels for a failed accessor are unreachable and not
modelled.) -/
def Series.getStr (s : Series) (row : Nat) : Option String :=
  match s.cells.get? row with
  | some (.str v) => some v
  | _ => none

/-- Typed integer accessor: models `series.i64()?.get(row)` and
`series.i32()?.get(row)` (the i32 payload is already widened to `Int`). -/
def Series.getInt (s : Series) (row : Nat) : Option Int :=
  match s.cells.get? row with
  | some (.int i) => some i
  | _ => none

/-- Typed float accessor: models `series.f64()?.get(row)` and
`series.f32()?.get(row)` (f32 → f64 widening is implicit in the `ℚ`
payload). -/
def Series.getFloat (s : Series) (row : Nat) : Option ℚ :=
  match s.cells.get? row with
  | some (.float q) => some q
  | _ => none

/-- `AnyValue`'s textual rendering (`any_val.to_string()`), used only in the
fallback branch for dtypes outside the five handled ones.  In that branch the
engine yields `AnyValue::Null` for null cells (rendered "null"), booleans
rendered "true"/"false", and other native values their own rendering; the
int/float/str cases below cannot occur there under `Series.wf` and their
renderings are nominal. -/
def Cell.render : Cell → String
  | .null => "null"
  | .bool b => if b then "true" else "false"
  | .str s => "\x22" ++ s ++ "\x22"
  | .int i => toString i
  | .float q => toString q
  | .other r => r

/-- `series_value_to_json` (src/rust-polars/src/lib.rs:439-484): convert one
engine cell to a JSON value.  A null cell of a handled dtype becomes the
type's sentinel via `unwrap_or` (`""`, `0`, `0.0`); for any other dtype the
cell is rendered as a string via `series.get(row)`, with `json!("null")` if
that indexing itself fails (out of bounds). -/
def series_value_to_json (s : Series) (row : Nat) : JsonValue :=
  match s.dtype with
  | .utf8 => .str ((s.getStr row).getD "")
  | .int64 => .numI ((s.getInt row).getD 0)
  | .float64 => .numF ((s.getFloat row).getD 0)
  | .int32 => .numI ((s.getInt row).getD 0)
  | .float32 => .numF ((s.getFloat row).getD 0)
  | _ =>
    match s.cells.get? row with
    | some c => .str c.render
    | none => .str "null"

/-- `json_value_to_any_value` (src/rust-polars/src/lib.rs:486-502): convert a
JSON value back to an engine `AnyValue` (represented as a `Cell`).  serde's
`as_i64` succeeds exactly on integer-tagged numbers, so integer numbers map
to `Int64` and float numbers to `Float64`; the source's final `Null` arm
(a number that is neither) and the `Utf8("null")` arm for arrays/objects are
unreachable for values this library produces and are not representable in
`JsonValue`. -/
def json_value_to_any_value : JsonValue → Cell
  | .null => .null
  | .bool b => .bool b
  | .numI i => .int i
  | .numF q => .float q
  | .str s => .str s

/-- Errors surfaced by the library.  `computeError` is
`PolarsError::ComputeError` (used by the source for invalid UTF-8 and for the
unknown-handle error "Invalid processor ID"); the remaining constructors
stand for the engine's own error kinds (CSV decode failure, missing column,
shape/duplicate errors from `DataFrame::new`). -/
inductive PolarsError where
  | computeError (msg : String) : PolarsError
  | csvError (msg : String) : PolarsError
  | columnNotFound (name : String) : PolarsError
  | shapeError (msg : String) : PolarsError
  | duplicateError (msg : String) : PolarsError
deriving DecidableEq, Repr

/-- The error `submit_chunk`/`get_stream_results` raise on an unknown handle
(`PolarsError::ComputeError("Invalid processor ID")`), which the spec calls
`SessionNotFound`. -/
def sessionNotFound : PolarsError := .computeError "Invalid processor ID"

/-- Engine dataframe: an ordered list of equally long, distinctly named
series (both invariants enforced by `DataFrame.new`). -/
structure DataFrame where
  cols : List Series
deriving DecidableEq, Repr

/-- `df.height()`: the length of the first column (0 for an empty frame). -/
def DataFrame.height (df : DataFrame) : Nat :=
  match df.cols with
  | [] => 0
  | c :: _ => c.cells.length

/-- `df.get_column_names()`. -/
def DataFrame.columnNames (df : DataFrame) : List String :=
  df.cols.map Series.name

/-- `df.column(name)`-style lookup used by the modelled lazy operations. -/
def DataFrame.findCol (df : DataFrame) (name : String) : Option Series :=
  df.cols.find? (fun s => s.name == name)

/-- All columns have the same cell count. -/
def sameLengths : List Series → Bool
  | [] => true
  | c :: cs => cs.all (fun s => s.cells.length == c.cells.length)

/-- `DataFrame::new` (engine): accepts the columns when their names are
distinct and their lengths agree, else fails. -/
def DataFrame.new (cols : List Series) : Except PolarsError DataFrame :=
  if (cols.map Series.name).Nodup then
    if sameLengths cols then .ok ⟨cols⟩
    else .error (.shapeError "could not create a new DataFrame: height mismatch")
  else .error (.duplicateError "duplicate column names")

/-- One accumulated row: a finite map from column name to JSON value.  The
source uses `HashMap<String, Value>`; it is modelled as an association list
whose entry order follows column insertion order.  Only `get` lookups and
(for the schemaless path) the key list are observed; polars column names are
unique within a frame, so first-match lookup agrees with `HashMap` lookup. -/
abbrev Row := List (String × JsonValue)

/-- `row.get(col)`. -/
def rowGet (row : Row) (col : String) : Option JsonValue :=
  row.lookup col

/-- Dtype of a single `AnyValue` (engine-side inference input). -/
def inferCellDType : Cell → DType
  | .null => .nullType
  | .str _ => .utf8
  | .int _ => .int64
  | .float _ => .float64
  | .bool _ => .boolean
  | .other _ => .other

/-- Engine supertype join on the dtypes that `json_value_to_any_value` can
produce (`nullType`, `boolean`, `int64`, `float64`, `utf8`): null is the
bottom element, string absorbs everything, float absorbs the numerics,
boolean widens to a numeric.  Combinations outside these five cannot arise
in this pipeline; they default to `utf8` (textual rendering). -/
def DType.sup : DType → DType → DType
  | .nullType, d => d
  | d, .nullType => d
  | .utf8, _ => .utf8
  | _, .utf8 => .utf8
  | .float64, .float64 => .float64
  | .float64, .int64 => .float64
  | .int64, .float64 => .float64
  | .float64, .boolean => .float64
  | .boolean, .float64 => .float64
  | .int64, .int64 => .int64
  | .int64, .boolean => .int64
  | .boolean, .int64 => .int64
  | .boolean, .boolean => .boolean
  | _, _ => .utf8

/-- Engine cast of one `AnyValue` to a target dtype (non-strict): nulls stay
null, ints widen to float, booleans widen to 0/1, anything casts to its
textual rendering for a string target.  Combinations that cannot arise in
this pipeline are kept unchanged. -/
def Cell.castTo (d : DType) (c : Cell) : Cell :=
  match d, c with
  | _, .null => .null
  | .utf8, .str s => .str s
  | .utf8, .int i => .str (toString i)
  | .utf8, .bool b => .str (if b then "true" else "false")
  | .utf8, .float q => .str (toString q)
  | .float64, .float q => .float q
  | .float64, .int i => .float (i : ℚ)
  | .float64, .bool b => .float (if b then 1 else 0)
  | .int64, .int i => .int i
  | .int64, .bool b => .int (if b then 1 else 0)
  | .nullType, _ => .null
  | _, c => c

/-- `Series::new(name, &[AnyValue])` (engine): infer the common supertype of
the values and cast each value to it.  Homogeneous-modulo-null inputs keep
their type; an all-null input yields a Null-dtype series. -/
def Series.new (name : String) (vals : List Cell) : Series :=
  let d := vals.foldl (fun d c => d.sup (inferCellDType c)) .nullType
  ⟨name, d, vals.map (Cell.castTo d)⟩

/-- `json_vec_to_dataframe` (src/rust-polars/src/lib.rs:414-437): rebuild an
engine dataframe from accumulated rows.  Columns come from `schema` when
present, else from the first row's keys (whose order, coming from a
`HashMap`, is not guaranteed by the source; the model uses entry order).
A column missing from a row contributes `Null` at that position. -/
def json_vec_to_dataframe (data : List Row) (schema : Option (List String)) :
    Except PolarsError DataFrame :=
  if data.isEmpty then .ok ⟨[]⟩
  else
    let default_columns : List String := (data.headD []).map Prod.fst
    let columns := schema.getD default_columns
    let series_vec := columns.map (fun col =>
      Series.new col
        (data.map (fun row => json_value_to_any_value ((rowGet row col).getD .null))))
    DataFrame.new series_vec

/-- `dataframe_to_json_vec` (src/rust-polars/src/lib.rs:397-412): one `Row`
per dataframe row, each pairing every column name with
`series_value_to_json` of its cell.  The source's `PolarsResult` wrapper
never carries an error (every branch returns `Ok`), so the model is total. -/
def dataframe_to_json_vec (df : DataFrame) : List Row :=
  (List.range df.height).map (fun r =>
    df.cols.map (fun s => (s.name, series_value_to_json s r)))

/-- `dataframe_to_json` (src/rust-polars/src/lib.rs:124-183): the source
inlines, per cell, the very same dtype match as `series_value_to_json` and
then renders the row list with `serde_json::to_string`.  The model keeps the
row list; the final string rendering is external (and object key order is
explicitly non-contractual per the spec). -/
def dataframe_to_json (df : DataFrame) : List Row :=
  dataframe_to_json_vec df

/-- Split a character list at every occurrence of `c` (the pieces between
separators, empty pieces included). -/
def splitOnCharAux (c : Char) : List Char → List (List Char)
  | [] => [[]]
  | x :: rest =>
    let r := splitOnCharAux c rest
    if x = c then [] :: r
    else
      match r with
      | [] => [[x]]
      | p :: ps => (x :: p) :: ps

/-- Rust's `str::split(c)` collected into a vector: `n` separators yield
`n + 1` pieces, the empty string yielding `[""]`. -/
def strSplit (s : String) (c : Char) : List String :=
  (splitOnCharAux c s.toList).map List.asString

/-- Rust's `str::starts_with(p)`. -/
def strStartsWith (s p : String) : Bool :=
  p.toList.isPrefixOf s.toList

/-- Result of Rust's `str::parse::<f64>`: a finite value (modelled exactly as
a rational, abstracting IEEE rounding — the thresholds exercised here are
exactly representable), an infinity, or NaN. -/
inductive F64 where
  | finite (q : ℚ) : F64
  | posInf : F64
  | negInf : F64
  | nan : F64
deriving DecidableEq, Repr

/-- Numeric value of the digit list `cs` (assumed all digits). -/
def digitsVal (cs : List Char) : Nat :=
  cs.foldl (fun a c => a * 10 + (c.toNat - 48)) 0

/-- Parse the exponent suffix of a float literal: empty, or `e`/`E` followed
by an optional sign and at least one digit, with nothing after. -/
def parseExpSuffix (m : ℚ) : List Char → Option ℚ
  | [] => some m
  | 'e' :: rest =>
    let (sgn, rest1) :=
      match rest with
      | '+' :: r => ((1 : Int), r)
      | '-' :: r => ((-1 : Int), r)
      | r => ((1 : Int), r)
    let (ed, rest2) := rest1.span Char.isDigit
    if ed.isEmpty || !rest2.isEmpty then none
    else some (m * (10 : ℚ) ^ (sgn * (digitsVal ed : Int)))
  | _ => none

/-- Parse an unsigned decimal mantissa (`digits`, `digits.digits`,
`digits.`, or `.digits` — at least one digit overall) with optional
exponent; the input has already been lowercased. -/
def parseMantissa (cs : List Char) : Option ℚ :=
  let (ip, rest) := cs.span Char.isDigit
  match rest with
  | '.' :: rest2 =>
    let (fp, rest3) := rest2.span Char.isDigit
    if ip.isEmpty && fp.isEmpty then none
    else
      parseExpSuffix ((digitsVal ip : ℚ) + (digitsVal fp : ℚ) / (10 : ℚ) ^ fp.length) rest3
  | _ =>
    if ip.isEmpty then none else parseExpSuffix (digitsVal ip : ℚ) rest

/-- Rust's `str::parse::<f64>` (stdlib, external to the repository): an
optional sign followed by `inf`, `infinity`, `nan` (case-insensitive) or a
decimal mantissa with optional exponent; anything else — in particular the
empty string, stray text, or trailing garbage — fails.  Finite values are
kept as exact rationals. -/
def parse_f64 (s : String) : Option F64 :=
  let cs := s.toList.map Char.toLower
  let (neg, body) :=
    match cs with
    | '+' :: r => (false, r)
    | '-' :: r => (true, r)
    | r => (false, r)
  if body = ['i', 'n', 'f'] || body = ['i', 'n', 'f', 'i', 'n', 'i', 't', 'y'] then
    some (if neg then .negInf else .posInf)
  else if body = ['n', 'a', 'n'] then
    some .nan
  else
    (parseMantissa body).map (fun q => .finite (if neg then -q else q))

/-- Numeric view of a cell, for the engine's numeric comparison: integer and
float payloads compare by value, everything else (null included) has none. -/
def Cell.asQ : Cell → Option ℚ
  | .int i => some (i : ℚ)
  | .float q => some q
  | _ => none

/-- Whether a dtype is one the engine will compare against a float literal. -/
def DType.isNumeric : DType → Bool
  | .int64 => true
  | .int32 => true
  | .float64 => true
  | .float32 => true
  | _ => false

/-- IEEE `>=` of a finite cell value against a parsed threshold: false
whenever the threshold is NaN, true against `-inf`, false against `+inf`. -/
def f64Ge (q : ℚ) : F64 → Bool
  | .finite t => decide (t ≤ q)
  | .posInf => false
  | .negInf => true
  | .nan => false

/-- Keep the entries of `cells` whose position is selected by `mask`. -/
def applyMask (mask : List Bool) (cells : List Cell) : List Cell :=
  ((mask.zip cells).filter (fun p => p.1)).map (fun p => p.2)

/-- Engine lazy pipeline `df.lazy().filter(col(column).gt_eq(lit(v))).collect()`:
fails if the column is missing or not numeric (string/boolean columns do not
compare against a float literal); otherwise keeps exactly the rows whose
`column` cell is non-null and `>= v`, dropping null cells from the
comparison. -/
def lazyFilterGe (df : DataFrame) (column : String) (v : F64) :
    Except PolarsError DataFrame :=
  match df.findCol column with
  | none => .error (.columnNotFound column)
  | some s =>
    if s.dtype.isNumeric then
      let mask := (List.range df.height).map (fun r =>
        match (s.cells.get? r).bind Cell.asQ with
        | some q => f64Ge q v
        | none => false)
      .ok ⟨df.cols.map (fun c => { c with cells := applyMask mask c.cells })⟩
    else .error (.computeError ("cannot compare column " ++ column ++ " with a numeric literal"))

/-- Distinct values of a cell list in order of first appearance.  The real
engine does not guarantee group order (`maintain_order` is off); no theorem
below depends on the order chosen here. -/
def distinctCells (cells : List Cell) : List Cell :=
  cells.foldl (fun acc c => if c ∈ acc then acc else acc ++ [c]) []

/-- Sum of the numeric values of the selected cells, nulls skipped (engine
`sum` semantics); an empty selection sums to 0. -/
def sumCellsAt (cells : List Cell) (sel : List Bool) : ℚ :=
  (((sel.zip cells).filter (fun p => p.1)).map
    (fun p => (p.2.asQ).getD 0)).foldl (· + ·) 0

/-- Engine lazy pipeline
`df.lazy().group_by([col(g)]).agg([col(sc).sum()]).collect()`: fails if
either column is missing or the summed column is not numeric; otherwise one
output row per distinct group key with the per-group sum, the sum column
keeping its name. -/
def lazyGroupBySum (df : DataFrame) (g sc : String) :
    Except PolarsError DataFrame :=
  match df.findCol g, df.findCol sc with
  | none, _ => .error (.columnNotFound g)
  | _, none => .error (.columnNotFound sc)
  | some gs, some ss =>
    if ss.dtype.isNumeric then
      let keys := distinctCells (gs.cells.take df.height)
      let sums := keys.map (fun k =>
        Cell.float (sumCellsAt ss.cells ((gs.cells.take df.height).map (fun c => c == k))))
      .ok ⟨[⟨gs.name, gs.dtype, keys⟩, ⟨ss.name, .float64, sums⟩]⟩
    else .error (.computeError ("cannot sum column " ++ sc))

/-- The operation-dispatch match of `get_stream_results_internal`
(src/rust-polars/src/lib.rs:297-324), factored as a function of the
materialized dataframe: descriptors with the `filter:`/`groupby:` prefix and
at least three `:`-separated parts run the corresponding lazy pipeline (the
filter threshold parsed with `unwrap_or(0.0)`); every other descriptor
leaves the dataframe untouched. -/
def apply_stream_operation (df : DataFrame) (operation : String) :
    Except PolarsError DataFrame :=
  if strStartsWith operation "filter:" then
    let parts := strSplit operation ':'
    if parts.length ≥ 3 then
      lazyFilterGe df (parts.getD 1 "") ((parse_f64 (parts.getD 2 "")).getD (.finite 0))
    else .ok df
  else if strStartsWith operation "groupby:" then
    let parts := strSplit operation ':'
    if parts.length ≥ 3 then
      lazyGroupBySum df (parts.getD 1 "") (parts.getD 2 "")
    else .ok df
  else .ok df

/-- `StreamProcessor` (src/rust-polars/src/lib.rs:191-195): one streaming
session's state. -/
structure StreamProcessor where
  operation : String
  accumulated_data : List Row
  schema : Option (List String)
deriving DecidableEq, Repr

/-- The process-wide registry (`STREAM_PROCESSORS` plus `NEXT_PROCESSOR_ID`,
src/rust-polars/src/lib.rs:188-189), passed explicitly.  The `BTreeMap` is
modelled as an association list with unique keys; every boundary call holds
the store lock for its whole duration, so explicit state passing captures
the per-call atomicity exactly. -/
structure Store where
  processors : List (Int × StreamProcessor)
  next_id : Int
deriving DecidableEq, Repr

/-- The registry immediately after process start: no sessions, next handle 1. -/
def emptyStore : Store := ⟨[], 1⟩

/-- `BTreeMap::get`. -/
def mapFind? (m : List (Int × StreamProcessor)) (k : Int) : Option StreamProcessor :=
  (m.find? (fun p => p.1 == k)).map Prod.snd

/-- `BTreeMap::insert` (replacing any existing binding). -/
def mapInsert (m : List (Int × StreamProcessor)) (k : Int) (v : StreamProcessor) :
    List (Int × StreamProcessor) :=
  match m with
  | [] => [(k, v)]
  | (k', v') :: rest => if k' == k then (k, v) :: rest else (k', v') :: mapInsert rest k v

/-- `BTreeMap::remove`. -/
def mapErase (m : List (Int × StreamProcessor)) (k : Int) :
    List (Int × StreamProcessor) :=
  m.filter (fun p => p.1 != k)

/-- In-place mutation through `BTreeMap::get_mut`. -/
def mapUpdate (m : List (Int × StreamProcessor)) (k : Int)
    (f : StreamProcessor → StreamProcessor) : List (Int × StreamProcessor) :=
  m.map (fun p => if p.1 == k then (p.1, f p.2) else p)

/-- The engine-relevant abstraction of one submitted chunk byte sequence.
Every concrete byte sequence falls in exactly one class: bytes that are not
valid UTF-8 (carrying the UTF-8 error's message), valid text the CSV reader
rejects (carrying the engine's message), or valid text the engine decodes to
the given dataframe.  The JNI `convert_byte_array` failure branch is
boundary marshalling, out of scope per the spec, and not modelled. -/
inductive ChunkBytes where
  | invalidUtf8 (msg : String) : ChunkBytes
  | malformed (msg : String) : ChunkBytes
  | table (df : DataFrame) : ChunkBytes
deriving DecidableEq, Repr

/-- The decode pipeline of `process_csv_chunk_internal`
(src/rust-polars/src/lib.rs:241-247): UTF-8 validation
(`String::from_utf8`, error wrapped as `ComputeError("Invalid UTF-8 in
chunk: ...")`) followed by `CsvReader::new(cursor).finish()`. -/
def decode_chunk : ChunkBytes → Except PolarsError DataFrame
  | .invalidUtf8 m => .error (.computeError ("Invalid UTF-8 in chunk: " ++ m))
  | .malformed m => .error (.csvError m)
  | .table df => .ok df

/-- The progress object `{"processed_rows": ..., "total_accumulated": ...}`
returned by a successful chunk submission (src/rust-polars/src/lib.rs:264-265),
kept structured; its JSON rendering is immediate. -/
structure ChunkResult where
  processed_rows : Nat
  total_accumulated : Nat
deriving DecidableEq, Repr

/-- `initStreamProcessor` (src/rust-polars/src/lib.rs:199-219): allocate the
next handle, insert a fresh session with empty accumulation and unset
schema, bump the counter. -/
def init_stream (st : Store) (operation : String) : Int × Store :=
  let processor_id := st.next_id
  (processor_id,
   ⟨mapInsert st.processors processor_id ⟨operation, [], none⟩, st.next_id + 1⟩)

/-- `process_csv_chunk_internal` (src/rust-polars/src/lib.rs:236-266): decode
the chunk bytes (before any session lookup), then look up the session
(`ComputeError("Invalid processor ID")` if absent), capture the schema from
the first successful chunk, append all decoded rows, and report the chunk's
row count and the new total. -/
def process_csv_chunk_internal (st : Store) (processor_id : Int)
    (chunk : ChunkBytes) : Except PolarsError ChunkResult × Store :=
  match decode_chunk chunk with
  | .error e => (.error e, st)
  | .ok df =>
    match mapFind? st.processors processor_id with
    | none => (.error sessionNotFound, st)
    | some p =>
      let schema' := if p.schema.isNone then some df.columnNames else p.schema
      let chunk_json := dataframe_to_json_vec df
      let acc' := p.accumulated_data ++ chunk_json
      (.ok ⟨df.height, acc'.length⟩,
       ⟨mapUpdate st.processors processor_id
          (fun q => { q with schema := schema', accumulated_data := acc' }),
        st.next_id⟩)

/-- `get_stream_results_internal` (src/rust-polars/src/lib.rs:284-327): look
up the session (`ComputeError("Invalid processor ID")` if absent), return
the empty row list on an empty accumulation, else re-materialize, run the
descriptor's operation and serialize.  The source only reads the registry
(`processors.get`, line 286), so the store passes through unchanged. -/
def get_stream_results_internal (st : Store) (processor_id : Int)
    (operation : String) : Except PolarsError (List Row) × Store :=
  (match mapFind? st.processors processor_id with
   | none => .error sessionNotFound
   | some p =>
     if p.accumulated_data.isEmpty then .ok []
     else
       match json_vec_to_dataframe p.accumulated_data p.schema with
       | .error e => .error e
       | .ok df =>
         match apply_stream_operation df operation with
         | .error e => .error e
         | .ok result_df => .ok (dataframe_to_json result_df),
   st)

/-- `closeStreamProcessor` (src/rust-polars/src/lib.rs:331-338): remove the
session; a no-op when the handle is absent. -/
def close_stream (st : Store) (processor_id : Int) : Store :=
  ⟨mapErase st.processors processor_id, st.next_id⟩

/-- A sequence of chunk submissions to one session, collecting each call's
result and threading the store. -/
def submitAll (st : Store) (processor_id : Int) :
    List ChunkBytes → List (Except PolarsError ChunkResult) × Store
  | [] => ([], st)
  | c :: cs =>
    let step := process_csv_chunk_internal st processor_id c
    let rest := submitAll step.2 processor_id cs
    (step.1 :: rest.1, rest.2)

/-- The totals discipline of a run of successful submissions: each result's
`total_accumulated` is the running base plus its own `processed_rows`. -/
def totalsMatch (base : Nat) : List ChunkResult → Bool
  | [] => true
  | r :: rs =>
    (r.total_accumulated == base + r.processed_rows) &&
      totalsMatch r.total_accumulated rs

/-- The two-row decoded chunk used to exercise the round-trip claim: its
first row carries Integer 42, Text "x", Float 3.5 and a Null (in the `Int64`
column `d`, as the engine decodes an empty CSV field of an otherwise integer
column). -/
def dfRoundTrip : DataFrame :=
  ⟨[⟨"a", .int64, [.int 42, .int 1]⟩,
    ⟨"b", .utf8, [.str "x", .str "y"]⟩,
    ⟨"c", .float64, [.float (mkRat 7 2), .float (mkRat 5 2)]⟩,
    ⟨"d", .int64, [.null, .int 7]⟩]⟩

end RustPolars

deriving instance DecidableEq for Except

namespace RustPolars

/-! ### Supporting lemmas -/

theorem mapFind?_mapUpdate_self (m : List (Int × StreamProcessor)) (k : Int)
    (f : StreamProcessor → StreamProcessor) :
    mapFind? (mapUpdate m k f) k = (mapFind? m k).map f := by
  induction m with
  | nil => rfl
  | cons hd tl ih =>
    by_cases h : hd.1 = k
    · simp [mapFind?, mapUpdate, h]
    · simpa [mapFind?, mapUpdate, h] using ih

theorem mapFind?_cons (hd : Int × StreamProcessor)
    (tl : List (Int × StreamProcessor)) (k : Int) :
    mapFind? (hd :: tl) k = if hd.1 = k then some hd.2 else mapFind? tl k := by
  by_cases h : hd.1 = k <;> simp [mapFind?, h]

theorem mapFind?_mapErase_ne (m : List (Int × StreamProcessor)) (k k' : Int)
    (h : k' ≠ k) : mapFind? (mapErase m k') k = mapFind? m k := by
  induction m with
  | nil => rfl
  | cons hd tl ih =>
    simp only [mapErase] at ih ⊢
    rw [List.filter_cons]
    by_cases hk' : hd.1 = k'
    · have hk : hd.1 ≠ k := by omega
      have hb : (hd.1 != k') = false := by simp [hk']
      rw [hb, mapFind?_cons, if_neg hk]
      simpa using ih
    · have hb : (hd.1 != k') = true := by simp [hk']
      rw [hb]
      simp only [if_true]
      rw [mapFind?_cons, mapFind?_cons]
      by_cases hk : hd.1 = k
      · simp [hk]
      · simpa [hk] using ih

theorem dataframe_to_json_vec_length (df : DataFrame) :
    (dataframe_to_json_vec df).length = df.height := by
  simp [dataframe_to_json_vec]

/-- Shape of a successful submission: the chunk decodes to `df`, the session
exists with prior state `p`; the call reports the chunk's height and the new
total, and the session's new state appends the whole chunk's rows and keeps
(or first sets) the schema. -/
theorem process_chunk_ok (st : Store) (processor_id : Int) (chunk : ChunkBytes)
    (df : DataFrame) (p : StreamProcessor)
    (hd : decode_chunk chunk = .ok df)
    (hp : mapFind? st.processors processor_id = some p) :
    process_csv_chunk_internal st processor_id chunk =
      (.ok ⟨df.height, p.accumulated_data.length + df.height⟩,
       ⟨mapUpdate st.processors processor_id
          (fun q => { q with
            schema := if p.schema.isNone then some df.columnNames else p.schema,
            accumulated_data := p.accumulated_data ++ dataframe_to_json_vec df }),
        st.next_id⟩) := by
  simp [process_csv_chunk_internal, hd, hp, dataframe_to_json_vec_length]

/-- Shape of a submission whose chunk fails to decode: the decode error is
returned and the whole store is untouched. -/
theorem process_chunk_err (st : Store) (processor_id : Int) (chunk : ChunkBytes)
    (e : PolarsError) (hd : decode_chunk chunk = .error e) :
    process_csv_chunk_internal st processor_id chunk = (.error e, st) := by
  simp [process_csv_chunk_internal, hd]

/-- Shape of a submission of a well-formed chunk to an unknown handle. -/
theorem process_chunk_unknown (st : Store) (processor_id : Int)
    (chunk : ChunkBytes) (df : DataFrame)
    (hd : decode_chunk chunk = .ok df)
    (hp : mapFind? st.processors processor_id = none) :
    process_csv_chunk_internal st processor_id chunk =
      (.error sessionNotFound, st) := by
  simp [process_csv_chunk_internal, hd, hp]

/-! ### Claim theorems -/

/-- Claim C10: `submit_chunk` validates and decodes the chunk bytes before
looking up the session.  For every chunk whose decoding fails (invalid
UTF-8 or text the engine cannot parse), the call returns that decode error
for every store and every handle — known, unknown or closed alike — and the
store, hence every session's state, is left exactly as it was. -/
theorem submit_decodes_before_lookup (st : Store) (processor_id : Int)
    (chunk : ChunkBytes) (e : PolarsError)
    (h : decode_chunk chunk = .error e) :
    process_csv_chunk_internal st processor_id chunk = (.error e, st) := by
  simp [process_csv_chunk_internal, h]

/-- Witness for C10: an invalid-UTF-8 chunk submitted against an unknown
handle of the fresh store returns the UTF-8 error and leaves the store
untouched. -/
theorem submit_decodes_before_lookup_witness :
    process_csv_chunk_internal emptyStore 5 (.invalidUtf8 "oops")
      = (.error (.computeError "Invalid UTF-8 in chunk: oops"), emptyStore) :=
  submit_decodes_before_lookup emptyStore 5 (.invalidUtf8 "oops") _ (by decide)

/-- Counterexample to claim C3 as stated: on a handle never returned by
`init_stream` (the fresh store has no sessions), `submit_chunk` with an
invalid-UTF-8 chunk does NOT fail with the `SessionNotFound` error — the
decode error wins because decoding precedes the session lookup. -/
theorem unknown_handle_counterexample :
    (process_csv_chunk_internal emptyStore 5 (.invalidUtf8 "bad")).1
      = .error (.computeError "Invalid UTF-8 in chunk: bad") ∧
    PolarsError.computeError "Invalid UTF-8 in chunk: bad" ≠ sessionNotFound := by
  decide

/-- Claim C3 (amended): for every handle absent from the session store
(never created, or already closed), `get_stream_results` fails with the
`SessionNotFound` error for every descriptor, and `submit_chunk` fails with
`SessionNotFound` for every chunk whose bytes decode successfully (for a
chunk that fails to decode, the decode error is returned instead, since
decoding precedes the lookup); neither call crashes or changes the store. -/
theorem unknown_handle_session_not_found (st : Store) (processor_id : Int)
    (h : mapFind? st.processors processor_id = none) :
    (∀ operation, get_stream_results_internal st processor_id operation
        = (.error sessionNotFound, st)) ∧
    (∀ chunk df, decode_chunk chunk = .ok df →
        process_csv_chunk_internal st processor_id chunk
          = (.error sessionNotFound, st)) := by
  constructor
  · intro operation
    simp [get_stream_results_internal, h]
  · intro chunk df hd
    exact process_chunk_unknown st processor_id chunk df hd h

/-- Witness for C3: a never-issued handle on the fresh store, and a handle
just closed after creation, both answer `SessionNotFound`. -/
theorem unknown_handle_session_not_found_witness :
    get_stream_results_internal emptyStore 5 "filter:a:1"
      = (.error sessionNotFound, emptyStore) ∧
    process_csv_chunk_internal emptyStore 5 (.table ⟨[]⟩)
      = (.error sessionNotFound, emptyStore) ∧
    (get_stream_results_internal
        (close_stream (init_stream emptyStore "op").2 1) 1 "").1
      = .error sessionNotFound := by
  refine ⟨?_, ?_, ?_⟩
  · exact (unknown_handle_session_not_found emptyStore 5 (by decide)).1 "filter:a:1"
  · exact (unknown_handle_session_not_found emptyStore 5 (by decide)).2
      (.table ⟨[]⟩) ⟨[]⟩ (by decide)
  · exact congrArg Prod.fst
      ((unknown_handle_session_not_found
        (close_stream (init_stream emptyStore "op").2 1) 1 (by decide)).1 "")

/-- Claim C6: `get_stream_results` is read-only with respect to session
state, and two calls with the same handle and descriptor with no
intervening `submit_chunk` return identical output: the second call,
run on the state left by the first, yields the very same result pair. -/
theorem get_results_read_only_idempotent (st : Store) (processor_id : Int)
    (operation : String) :
    (get_stream_results_internal st processor_id operation).2 = st ∧
    get_stream_results_internal
        (get_stream_results_internal st processor_id operation).2
        processor_id operation
      = get_stream_results_internal st processor_id operation :=
  ⟨rfl, rfl⟩

/-- Counterexample to claim C1 as stated: a null cell of an `Int64` column
is converted to the integer 0, not to the Null row value — the source's
`unwrap_or(0)` applies to the per-cell accessor result, not only to an
accessor failure.  The same holds through `dataframe_to_json`. -/
theorem null_cell_sentinel_counterexample :
    series_value_to_json ⟨"v", .int64, [.null]⟩ 0 = .numI 0 ∧
    series_value_to_json ⟨"v", .int64, [.null]⟩ 0 ≠ .null ∧
    dataframe_to_json ⟨[⟨"v", .int64, [.null]⟩]⟩ = [[("v", .numI 0)]] := by
  decide

/-- Claim C1 (amended): in the Engine-to-RowValue conversion, a
missing/null cell of a text, 64/32-bit integer or 64/32-bit float column is
converted to the column type's sentinel — the empty string, 0, or 0.0
respectively — never to the Null row value. -/
theorem null_cell_sentinel (s : Series) (row : Nat)
    (h : s.cells.get? row = some .null) :
    (s.dtype = .utf8 → series_value_to_json s row = .str "") ∧
    (s.dtype = .int64 ∨ s.dtype = .int32 → series_value_to_json s row = .numI 0) ∧
    (s.dtype = .float64 ∨ s.dtype = .float32 → series_value_to_json s row = .numF 0) := by
  rw [List.get?_eq_getElem?] at h
  refine ⟨fun hd => ?_, fun hd => ?_, fun hd => ?_⟩
  · simp [series_value_to_json, hd, Series.getStr, h]
  · rcases hd with hd | hd <;> simp [series_value_to_json, hd, Series.getInt, h]
  · rcases hd with hd | hd <;> simp [series_value_to_json, hd, Series.getFloat, h]

/-- Witness for C1 (amended): a null text cell becomes the empty string. -/
theorem null_cell_sentinel_witness :
    series_value_to_json ⟨"t", .utf8, [.null]⟩ 0 = .str "" :=
  (null_cell_sentinel ⟨"t", .utf8, [.null]⟩ 0 (by decide)).1 rfl

/-- Claim C4: for an existing session, a chunk whose decoding fails leaves
the call with that error and the whole store — hence the session's
accumulated rows and schema — exactly as before; and a chunk that decodes
appends all of its rows in a single step (all-or-nothing). -/
theorem failed_chunk_leaves_session_untouched (st : Store) (processor_id : Int)
    (p : StreamProcessor) (chunk : ChunkBytes)
    (hp : mapFind? st.processors processor_id = some p) :
    (∀ e, decode_chunk chunk = .error e →
        process_csv_chunk_internal st processor_id chunk = (.error e, st)) ∧
    (∀ df, decode_chunk chunk = .ok df →
        mapFind? (process_csv_chunk_internal st processor_id chunk).2.processors
            processor_id
          = some ⟨p.operation,
                  p.accumulated_data ++ dataframe_to_json_vec df,
                  if p.schema.isNone then some df.columnNames else p.schema⟩) := by
  constructor
  · intro e he
    exact process_chunk_err st processor_id chunk e he
  · intro df hd
    rw [process_chunk_ok st processor_id chunk df p hd hp]
    simp [mapFind?_mapUpdate_self, hp]

/-- Witness for C4: a malformed chunk submitted to a freshly created session
returns the CSV error and leaves the store as it was. -/
theorem failed_chunk_leaves_session_untouched_witness :
    process_csv_chunk_internal (init_stream emptyStore "op").2 1 (.malformed "bad")
      = (.error (.csvError "bad"), (init_stream emptyStore "op").2) :=
  (failed_chunk_leaves_session_untouched (init_stream emptyStore "op").2 1
      ⟨"op", [], none⟩ (.malformed "bad") (by decide)).1 _ (by decide)

/-- Counterexample to claim C2 as stated: a chunk whose first decoded row
carries Integer 42, Text "x", Float 3.5 and a Null (the `Int64` column `d`),
submitted to a fresh session and retrieved with a no-op descriptor, does NOT
reproduce the Null: it comes back as Integer 0, because the decode step
already replaced the null cell by the integer sentinel. -/
theorem round_trip_counterexample :
    (dfRoundTrip.findCol "d").map Series.cells = some [.null, .int 7] ∧
    (get_stream_results_internal
        (process_csv_chunk_internal (init_stream emptyStore "noop").2 1
          (.table dfRoundTrip)).2 1 "").1
      = .ok [[("a", .numI 42), ("b", .str "x"), ("c", .numF (mkRat 7 2)),
              ("d", .numI 0)],
             [("a", .numI 1), ("b", .str "y"), ("c", .numF (mkRat 5 2)),
              ("d", .numI 7)]] ∧
    JsonValue.numI 0 ≠ JsonValue.null := by
  decide

/-- Claim C2 (amended): Integer 42, Text "x" and Float 3.5 round-trip
losslessly — values and types preserved — through
decode → accumulate → re-materialize with a no-op descriptor; a Null cell
does not: it is converted at decode time into the column type's sentinel
(here 0, the `Int64` sentinel), so the example row is reproduced as
{42, "x", 3.5, 0}. -/
theorem round_trip_values :
    (mkRat 7 2 : ℚ) = 3.5 ∧
    (process_csv_chunk_internal (init_stream emptyStore "noop").2 1
        (.table dfRoundTrip)).1 = .ok ⟨2, 2⟩ ∧
    (get_stream_results_internal
        (process_csv_chunk_internal (init_stream emptyStore "noop").2 1
          (.table dfRoundTrip)).2 1 "").1
      = .ok [[("a", .numI 42), ("b", .str "x"), ("c", .numF (mkRat 7 2)),
              ("d", .numI 0)],
             [("a", .numI 1), ("b", .str "y"), ("c", .numF (mkRat 5 2)),
              ("d", .numI 7)]] := by
  refine ⟨by norm_num [Rat.mkRat_eq_div], by decide, by decide⟩

/-- A descriptor whose operation leaves every dataframe untouched makes
`get_stream_results` answer exactly as for the empty descriptor. -/
theorem noop_descriptor_get_results (st : Store) (processor_id : Int)
    (operation : String)
    (hop : ∀ d : DataFrame, apply_stream_operation d operation = .ok d) :
    get_stream_results_internal st processor_id operation
      = get_stream_results_internal st processor_id "" := by
  have hop0 : ∀ d : DataFrame, apply_stream_operation d "" = .ok d :=
    fun d => by simp [apply_stream_operation, strStartsWith, strSplit]
  unfold get_stream_results_internal
  cases hm : mapFind? st.processors processor_id with
  | none => rfl
  | some p =>
    by_cases he : p.accumulated_data.isEmpty
    · simp [he]
    · simp only [he]
      cases hj : json_vec_to_dataframe p.accumulated_data p.schema with
      | error e => simp
      | ok d => simp [hop d, hop0 d]

/-- Claim C7: a descriptor without the `filter:`/`groupby:` prefix — or with
fewer than three `:`-separated parts — is a no-op: the operation leaves the
materialized table unchanged and `get_stream_results` answers exactly as for
the empty descriptor; and a filter descriptor whose threshold does not parse
as a float runs the filter with threshold 0.0 instead of failing. -/
theorem malformed_descriptor_noop (df : DataFrame) (st : Store)
    (processor_id : Int) (operation : String) :
    (strStartsWith operation "filter:" = false →
     strStartsWith operation "groupby:" = false →
       apply_stream_operation df operation = .ok df ∧
       get_stream_results_internal st processor_id operation
         = get_stream_results_internal st processor_id "") ∧
    ((strSplit operation ':').length < 3 →
       apply_stream_operation df operation = .ok df ∧
       get_stream_results_internal st processor_id operation
         = get_stream_results_internal st processor_id "") ∧
    (strStartsWith operation "filter:" = true →
     3 ≤ (strSplit operation ':').length →
     parse_f64 ((strSplit operation ':').getD 2 "") = none →
       apply_stream_operation df operation
         = lazyFilterGe df ((strSplit operation ':').getD 1 "") (.finite 0)) := by
  refine ⟨fun h1 h2 => ?_, fun hlen => ?_, fun hf hlen hparse => ?_⟩
  · have hop : ∀ d : DataFrame, apply_stream_operation d operation = .ok d :=
      fun d => by simp [apply_stream_operation, h1, h2]
    exact ⟨hop df, noop_descriptor_get_results st processor_id operation hop⟩
  · have h3 : ¬ (3 ≤ (strSplit operation ':').length) := by omega
    have hop : ∀ d : DataFrame, apply_stream_operation d operation = .ok d := by
      intro d
      by_cases hf : strStartsWith operation "filter:"
      · simp [apply_stream_operation, hf, h3]
      · by_cases hg : strStartsWith operation "groupby:"
        · simp [apply_stream_operation, hf, hg, h3]
        · simp [apply_stream_operation, hf, hg]
    exact ⟨hop df, noop_descriptor_get_results st processor_id operation hop⟩
  · simp only [List.getD_eq_getElem?_getD] at hparse
    simp [apply_stream_operation, hf, hlen, hparse]

/-- Witness for C7: on a one-column frame, the descriptors "hello" (no
recognized prefix) and "filter:a" (two parts) are no-ops, and
"filter:a:xyz" (unparsable threshold) filters with threshold 0.0. -/
theorem malformed_descriptor_noop_witness :
    apply_stream_operation ⟨[⟨"a", .int64, [.int 1]⟩]⟩ "hello"
      = .ok ⟨[⟨"a", .int64, [.int 1]⟩]⟩ ∧
    apply_stream_operation ⟨[⟨"a", .int64, [.int 1]⟩]⟩ "filter:a"
      = .ok ⟨[⟨"a", .int64, [.int 1]⟩]⟩ ∧
    apply_stream_operation ⟨[⟨"a", .int64, [.int 1]⟩]⟩ "filter:a:xyz"
      = lazyFilterGe ⟨[⟨"a", .int64, [.int 1]⟩]⟩
          ((strSplit "filter:a:xyz" ':').getD 1 "") (.finite 0) :=
  ⟨((malformed_descriptor_noop ⟨[⟨"a", .int64, [.int 1]⟩]⟩ emptyStore 1
      "hello").1 (by decide) (by decide)).1,
   ((malformed_descriptor_noop ⟨[⟨"a", .int64, [.int 1]⟩]⟩ emptyStore 1
      "filter:a").2.1 (by decide)).1,
   (malformed_descriptor_noop ⟨[⟨"a", .int64, [.int 1]⟩]⟩ emptyStore 1
      "filter:a:xyz").2.2 (by decide) (by decide) (by decide)⟩

theorem totalsMatch_get (rs : List ChunkResult) : ∀ (base : Nat),
    totalsMatch base rs = true →
    ∀ k (hk : k < rs.length),
      (rs.get ⟨k, hk⟩).total_accumulated
        = base + ((rs.take (k + 1)).map ChunkResult.processed_rows).sum := by
  induction rs with
  | nil => intro base h k hk; simp at hk
  | cons r rs ih =>
    intro base h k hk
    simp only [totalsMatch, Bool.and_eq_true, beq_iff_eq] at h
    match k with
    | 0 => simpa using h.1
    | Nat.succ k =>
      have hrec := ih r.total_accumulated h.2 k (by simpa using hk)
      simp only [List.get_cons_succ, List.take_succ_cons, List.map_cons,
        List.sum_cons] at hrec ⊢
      omega

theorem totalsMatch_chain (rs : List ChunkResult) : ∀ (base : Nat),
    totalsMatch base rs = true →
    List.Chain' (fun a b => a ≤ b) (rs.map ChunkResult.total_accumulated) := by
  induction rs with
  | nil => intro base _; simp
  | cons r rs ih =>
    intro base h
    simp only [totalsMatch, Bool.and_eq_true, beq_iff_eq] at h
    have hc := ih r.total_accumulated h.2
    cases rs with
    | nil => simp
    | cons s rs' =>
      have h2 := h.2
      simp only [totalsMatch, Bool.and_eq_true, beq_iff_eq] at h2
      refine List.Chain'.cons ?_ hc
      omega

/-- Every run of submissions that all succeed obeys the totals discipline,
starting from the session's prior accumulated count. -/
theorem submitAll_totals (chunks : List ChunkBytes) : ∀ (st : Store)
    (processor_id : Int) (p : StreamProcessor),
    mapFind? st.processors processor_id = some p →
    ∀ results : List ChunkResult,
      (submitAll st processor_id chunks).1 = results.map Except.ok →
      totalsMatch p.accumulated_data.length results = true := by
  induction chunks with
  | nil =>
    intro st processor_id p hp results h
    simp only [submitAll] at h
    cases results with
    | nil => rfl
    | cons r rs => simp at h
  | cons c cs ih =>
    intro st processor_id p hp results h
    simp only [submitAll] at h
    cases hd : decode_chunk c with
    | error e =>
      rw [process_chunk_err st processor_id c e hd] at h
      cases results with
      | nil => simp at h
      | cons r rs => simp at h
    | ok df =>
      rw [process_chunk_ok st processor_id c df p hd hp] at h
      cases results with
      | nil => simp at h
      | cons r rs =>
        simp only [List.map_cons, List.cons.injEq, Except.ok.injEq] at h
        obtain ⟨h1, h2⟩ := h
        subst h1
        have hp' : mapFind?
            (mapUpdate st.processors processor_id
              (fun q => { q with
                schema := if p.schema.isNone then some df.columnNames
                          else p.schema,
                accumulated_data :=
                  p.accumulated_data ++ dataframe_to_json_vec df }))
            processor_id
          = some ⟨p.operation,
                  p.accumulated_data ++ dataframe_to_json_vec df,
                  if p.schema.isNone then some df.columnNames else p.schema⟩ := by
          rw [mapFind?_mapUpdate_self, hp]
          rfl
        have ht := ih ⟨mapUpdate st.processors processor_id
            (fun q => { q with
              schema := if p.schema.isNone then some df.columnNames
                        else p.schema,
              accumulated_data :=
                p.accumulated_data ++ dataframe_to_json_vec df }),
          st.next_id⟩ processor_id _ hp' rs h2
        simp only [List.length_append, dataframe_to_json_vec_length] at ht
        simp only [totalsMatch, Bool.and_eq_true, beq_iff_eq]
        exact ⟨trivial, ht⟩

/-- Claim C5: over any sequence of submissions to a freshly created session
that all succeed, each returned `total_accumulated` equals the sum of the
`processed_rows` of all submissions so far (the current one included), and
consequently the `total_accumulated` sequence is non-decreasing. -/
theorem total_accumulated_is_running_sum (st : Store) (processor_id : Int)
    (p : StreamProcessor) (hp : mapFind? st.processors processor_id = some p)
    (h0 : p.accumulated_data = []) (chunks : List ChunkBytes)
    (results : List ChunkResult)
    (hok : (submitAll st processor_id chunks).1 = results.map Except.ok) :
    (∀ k (hk : k < results.length),
        (results.get ⟨k, hk⟩).total_accumulated
          = ((results.take (k + 1)).map ChunkResult.processed_rows).sum) ∧
    List.Chain' (fun a b => a ≤ b)
      (results.map ChunkResult.total_accumulated) := by
  have ht := submitAll_totals chunks st processor_id p hp results hok
  rw [h0] at ht
  exact ⟨fun k hk => by simpa using totalsMatch_get results 0 ht k hk,
         totalsMatch_chain results 0 ht⟩

/-- Witness for C5: two successful submissions of heights 2 and 1 to a fresh
session report totals 2 and 3 — the running sums — and those totals are
non-decreasing. -/
theorem total_accumulated_is_running_sum_witness :
    List.Chain' (fun a b => a ≤ b)
      (([⟨2, 2⟩, ⟨1, 3⟩] : List ChunkResult).map ChunkResult.total_accumulated) :=
  (total_accumulated_is_running_sum (init_stream emptyStore "op").2 1
      ⟨"op", [], none⟩ (by decide) rfl
      [.table ⟨[⟨"x", .int64, [.int 10, .int 20]⟩]⟩,
       .table ⟨[⟨"x", .int64, [.int 5]⟩]⟩]
      [⟨2, 2⟩, ⟨1, 3⟩] (by decide)).2

/-- Claim C8: a session's schema is captured from the header of the first
successfully decoded chunk, and once set it survives every further
operation: any later `submit_chunk` (successful or failing) leaves it
intact, `get_stream_results` leaves the whole store untouched, and closing a
different handle leaves the session — schema included — unchanged. -/
theorem schema_set_once (st : Store) (processor_id : Int) (p : StreamProcessor)
    (hp : mapFind? st.processors processor_id = some p) :
    (∀ chunk df, p.schema = none → decode_chunk chunk = .ok df →
        ∃ p', mapFind?
            (process_csv_chunk_internal st processor_id chunk).2.processors
            processor_id = some p' ∧
          p'.schema = some df.columnNames) ∧
    (∀ s chunk, p.schema = some s →
        ∃ p', mapFind?
            (process_csv_chunk_internal st processor_id chunk).2.processors
            processor_id = some p' ∧
          p'.schema = some s) ∧
    (∀ operation,
        (get_stream_results_internal st processor_id operation).2 = st) ∧
    (∀ h', h' ≠ processor_id →
        mapFind? (close_stream st h').processors processor_id = some p) := by
  refine ⟨fun chunk df hn hd => ?_, fun s chunk hs => ?_, fun _ => rfl,
          fun h' hne => ?_⟩
  · rw [process_chunk_ok st processor_id chunk df p hd hp]
    refine ⟨⟨p.operation, p.accumulated_data ++ dataframe_to_json_vec df,
             if p.schema.isNone then some df.columnNames else p.schema⟩,
           ?_, ?_⟩
    · rw [mapFind?_mapUpdate_self, hp]
      rfl
    · simp [hn]
  · cases hd : decode_chunk chunk with
    | error e =>
      rw [process_chunk_err st processor_id chunk e hd]
      exact ⟨p, hp, hs⟩
    | ok df =>
      rw [process_chunk_ok st processor_id chunk df p hd hp]
      refine ⟨⟨p.operation, p.accumulated_data ++ dataframe_to_json_vec df,
               if p.schema.isNone then some df.columnNames else p.schema⟩,
             ?_, ?_⟩
      · rw [mapFind?_mapUpdate_self, hp]
        rfl
      · simp [hs]
  · exact (mapFind?_mapErase_ne st.processors processor_id h' hne).trans hp

/-- Witness for C8: after a first chunk with header ["x"] fixes the schema,
submitting a second chunk whose header is ["y"] leaves the schema at
["x"]. -/
theorem schema_set_once_witness :
    ∃ p', mapFind?
        (process_csv_chunk_internal
          (process_csv_chunk_internal (init_stream emptyStore "op").2 1
            (.table ⟨[⟨"x", .int64, [.int 1]⟩]⟩)).2 1
          (.table ⟨[⟨"y", .int64, [.int 2]⟩]⟩)).2.processors 1 = some p' ∧
      p'.schema = some ["x"] :=
  (schema_set_once
      (process_csv_chunk_internal (init_stream emptyStore "op").2 1
        (.table ⟨[⟨"x", .int64, [.int 1]⟩]⟩)).2 1
      ⟨"op", [[("x", .numI 1)]], some ["x"]⟩ (by decide)).2.1
    ["x"] (.table ⟨[⟨"y", .int64, [.int 2]⟩]⟩) rfl

theorem sameLengths_of_const (l : List Series) (n : Nat)
    (h : ∀ sr ∈ l, sr.cells.length = n) : sameLengths l = true := by
  cases l with
  | nil => rfl
  | cons c cs =>
    simp only [sameLengths, List.all_eq_true]
    intro sr hsr
    rw [h sr (List.mem_cons_of_mem _ hsr), h c (List.mem_cons_self _ _)]
    exact beq_self_eq_true n

/-- Claim C9: when a session's schema is set (to distinct names), the
materialized table has exactly the schema's columns in schema order; any
column name present in accumulated rows but absent from the schema does not
appear in the result. -/
theorem materialized_columns_follow_schema (data : List Row) (s : List String)
    (hnd : s.Nodup) (hne : data ≠ []) :
    ∃ df, json_vec_to_dataframe data (some s) = .ok df ∧
      df.columnNames = s ∧
      ∀ col, col ∉ s → df.findCol col = none := by
  match data with
  | [] => exact absurd rfl hne
  | d :: ds =>
    have hnames : ((s.map (fun col => Series.new col ((d :: ds).map (fun row =>
        json_value_to_any_value ((rowGet row col).getD .null))))).map
          Series.name) = s := by
      rw [List.map_map]
      have : (Series.name ∘ fun col => Series.new col ((d :: ds).map (fun row =>
          json_value_to_any_value ((rowGet row col).getD .null)))) = id := rfl
      rw [this, List.map_id]
    have hlen : ∀ sr ∈ s.map (fun col => Series.new col ((d :: ds).map
        (fun row => json_value_to_any_value ((rowGet row col).getD .null)))),
        sr.cells.length = (d :: ds).length := by
      intro sr hsr
      obtain ⟨col, _, rfl⟩ := List.mem_map.mp hsr
      simp [Series.new]
    have h1 : ((s.map (fun col => Series.new col ((d :: ds).map (fun row =>
        json_value_to_any_value ((rowGet row col).getD .null))))).map
          Series.name).Nodup := by
      rw [hnames]
      exact hnd
    refine ⟨⟨s.map (fun col => Series.new col ((d :: ds).map (fun row =>
        json_value_to_any_value ((rowGet row col).getD .null))))⟩, ?_, ?_, ?_⟩
    · show json_vec_to_dataframe (d :: ds) (some s) = _
      simp only [json_vec_to_dataframe, List.isEmpty_cons, Bool.false_eq_true,
        if_false, Option.getD_some, DataFrame.new]
      rw [if_pos h1, if_pos (sameLengths_of_const _ _ hlen)]
    · exact hnames
    · intro col hcol
      simp only [DataFrame.findCol, List.find?_eq_none, List.mem_map]
      rintro sr ⟨x, hx, rfl⟩
      have hxc : x ≠ col := fun hxc => hcol (hxc ▸ hx)
      simpa [Series.new] using hxc

/-- Witness for C9: with schema ["a"], a row also carrying column "b"
materializes to a table whose only column is "a"; "b" is dropped. -/
theorem materialized_columns_follow_schema_witness :
    ∃ df, json_vec_to_dataframe [[("a", .numI 1), ("b", .str "z")]]
        (some ["a"]) = .ok df ∧
      df.columnNames = ["a"] ∧
      ∀ col, col ∉ ["a"] → df.findCol col = none :=
  materialized_columns_follow_schema [[("a", .numI 1), ("b", .str "z")]]
    ["a"] (by decide) (by decide)

end RustPolars
